import Mathlib

/-!
Verification of `magicgui/widgets/_protocols.py`: the protocol (interface)
hierarchy that backends must implement, the `SupportsOrientation` property
with its write-side validation, and the `BaseApplicationBackend` abstract
class for the application / event-loop contract.

The embedding models:
* each protocol class as a constructor of `ProtoClass`, with its base-class
  list, its class-body attributes, and whether it carries the
  `@runtime_checkable` decorator, read off the source;
* Python's runtime protocol `isinstance` check: a structural test that the
  instance has every attribute collected over the protocol's MRO, guarded by
  the `_is_runtime_protocol` flag which is looked up through the MRO
  (so a subclass of a runtime-checkable protocol inherits the flag);
* the `orientation` property getter and setter bodies as state-passing
  functions that record each call to the underlying `_mgui_set_orientation`;
* the default bodies of the abstract methods (`raise NotImplementedError()`
  in the protocol classes, empty bodies returning `None` in
  `BaseApplicationBackend`);
* ABC instantiation: constructing a subclass of `BaseApplicationBackend`
  fails with `TypeError` while any abstract method is left unimplemented.
-/

namespace Magicgui

/-- Python exception classes that appear at this protocol layer. -/
inductive PyError where
  | typeError (msg : String)
  | valueError (msg : String)
  | indexError (msg : String)
  | notImplementedError
  deriving DecidableEq

/-- Python values returned by the default method bodies we model. -/
inductive PyValue where
  | none
  | str (s : String)
  deriving DecidableEq

/-- Outcome of invoking a method body: it either raises or returns. -/
inductive CallOutcome where
  | raised (e : PyError)
  | returned (v : PyValue)
  deriving DecidableEq

/-- The protocol classes declared in `magicgui/widgets/_protocols.py`. -/
inductive ProtoClass where
  | WidgetProtocol
  | ValueWidgetProtocol
  | RangedWidgetProtocol
  | SupportsChoices
  | CategoricalWidgetProtocol
  | SupportsText
  | ButtonWidgetProtocol
  | SupportsOrientation
  | SliderWidgetProtocol
  | ContainerProtocol
  deriving DecidableEq

/-- Protocol base classes, as written in each `class` header
(`Protocol` itself omitted). -/
def protoBases : ProtoClass → List ProtoClass
  | .WidgetProtocol => []
  | .ValueWidgetProtocol => [.WidgetProtocol]
  | .RangedWidgetProtocol => [.ValueWidgetProtocol]
  | .SupportsChoices => []
  | .CategoricalWidgetProtocol => [.ValueWidgetProtocol, .SupportsChoices]
  | .SupportsText => []
  | .ButtonWidgetProtocol => [.ValueWidgetProtocol, .SupportsText]
  | .SupportsOrientation => []
  | .SliderWidgetProtocol => [.RangedWidgetProtocol, .SupportsOrientation]
  | .ContainerProtocol => [.WidgetProtocol, .SupportsOrientation]

/-- Which classes carry the `@runtime_checkable` decorator in the source.
`ContainerProtocol` is the only protocol class without it. -/
def directRuntimeCheckable : ProtoClass → Bool
  | .WidgetProtocol => true
  | .ValueWidgetProtocol => true
  | .RangedWidgetProtocol => true
  | .SupportsChoices => true
  | .CategoricalWidgetProtocol => true
  | .SupportsText => true
  | .ButtonWidgetProtocol => true
  | .SupportsOrientation => true
  | .SliderWidgetProtocol => true
  | .ContainerProtocol => false

/-- The C3-linearized method resolution order of each protocol class
(restricted to the classes of this module; `Protocol` / `object` omitted). -/
def protoMro : ProtoClass → List ProtoClass
  | .WidgetProtocol => [.WidgetProtocol]
  | .ValueWidgetProtocol => [.ValueWidgetProtocol, .WidgetProtocol]
  | .RangedWidgetProtocol => [.RangedWidgetProtocol, .ValueWidgetProtocol, .WidgetProtocol]
  | .SupportsChoices => [.SupportsChoices]
  | .CategoricalWidgetProtocol =>
      [.CategoricalWidgetProtocol, .ValueWidgetProtocol, .WidgetProtocol, .SupportsChoices]
  | .SupportsText => [.SupportsText]
  | .ButtonWidgetProtocol =>
      [.ButtonWidgetProtocol, .ValueWidgetProtocol, .WidgetProtocol, .SupportsText]
  | .SupportsOrientation => [.SupportsOrientation]
  | .SliderWidgetProtocol =>
      [.SliderWidgetProtocol, .RangedWidgetProtocol, .ValueWidgetProtocol, .WidgetProtocol,
       .SupportsOrientation]
  | .ContainerProtocol => [.ContainerProtocol, .WidgetProtocol, .SupportsOrientation]

/-- The abstract `_mgui_` methods declared in each protocol class body,
in source order. -/
def ownAbstractMethods : ProtoClass → List String
  | .WidgetProtocol =>
      ["_mgui_show_widget", "_mgui_hide_widget", "_mgui_get_enabled", "_mgui_set_enabled",
       "_mgui_get_parent", "_mgui_set_parent", "_mgui_get_native_widget",
       "_mgui_bind_parent_change_callback", "_mgui_render"]
  | .ValueWidgetProtocol =>
      ["_mgui_get_value", "_mgui_set_value", "_mgui_bind_change_callback"]
  | .RangedWidgetProtocol =>
      ["_mgui_get_minimum", "_mgui_set_minimum", "_mgui_get_maximum", "_mgui_set_maximum",
       "_mgui_get_step", "_mgui_set_step"]
  | .SupportsChoices => ["_mgui_get_choices", "_mgui_set_choices"]
  | .CategoricalWidgetProtocol => []
  | .SupportsText => ["_mgui_set_text", "_mgui_get_text"]
  | .ButtonWidgetProtocol => []
  | .SupportsOrientation => ["_mgui_set_orientation", "_mgui_get_orientation"]
  | .SliderWidgetProtocol => []
  | .ContainerProtocol =>
      ["_mgui_add_widget", "_mgui_insert_widget", "_mgui_remove_widget", "_mgui_remove_index",
       "_mgui_count", "_mgui_index", "_mgui_get_index", "_mgui_get_native_layout",
       "_mgui_get_margins", "_mgui_set_margins"]

/-- All attributes defined in a class body that Python's
`_get_protocol_attrs` collects: the abstract methods, plus the
`orientation` property defined in the body of `SupportsOrientation`. -/
def ownAttrs (p : ProtoClass) : List String :=
  match p with
  | .SupportsOrientation => "orientation" :: ownAbstractMethods .SupportsOrientation
  | _ => ownAbstractMethods p

/-- The full protocol attribute set: the union over the MRO of each class's
own attributes, as `_get_protocol_attrs` computes it. -/
def protocolAttrs (p : ProtoClass) : List String :=
  ((protoMro p).map ownAttrs).flatten

/-- Whether `getattr(cls, "_is_runtime_protocol", False)` is true: the flag
is set by the decorator and inherited through the MRO, so a protocol whose
base is runtime-checkable is itself treated as runtime-checkable. -/
def isRuntimeProtocol (p : ProtoClass) : Bool :=
  (protoMro p).any directRuntimeCheckable

/-- A Python object, abstracted to the set of attribute names it exposes
(`hasattr` is list membership). Duck typing: there is no declared class. -/
structure PyObj where
  attrs : List String
  deriving DecidableEq

/-- Runtime protocol `isinstance` check: raises `TypeError` when the class
is not runtime-checkable, otherwise structurally tests that the instance
has every attribute of the protocol (Python's `_ProtocolMeta.__instancecheck__`
testing `hasattr(instance, attr) for attr in _get_protocol_attrs(cls)`). -/
def isinstance (o : PyObj) (p : ProtoClass) : Except PyError Bool :=
  if isRuntimeProtocol p then
    Except.ok ((protocolAttrs p).all (fun a => o.attrs.contains a))
  else
    Except.error (.typeError
      "Instance and class checks can only be used with @runtime_checkable protocols")

/-- Default body of each abstract protocol method: every one of them is
`raise NotImplementedError()` in the source. `Option.none` for names that
are not abstract methods of `p`. -/
def protoMethodDefaultBody (p : ProtoClass) (m : String) : Option CallOutcome :=
  if m ∈ ownAbstractMethods p then some (.raised .notImplementedError) else none

/-- The seven abstract `_mgui_` methods of `BaseApplicationBackend`,
in source order. -/
def appBackendAbstractMethods : List String :=
  ["_mgui_get_backend_name", "_mgui_process_events", "_mgui_run", "_mgui_quit",
   "_mgui_get_native_app", "_mgui_start_timer", "_mgui_stop_timer"]

/-- Default body of each abstract `BaseApplicationBackend` method: in the
source these bodies contain only a docstring, so invoking one returns
`None`; none of them raises. -/
def appBackendMethodDefaultBody (m : String) : Option CallOutcome :=
  if m ∈ appBackendAbstractMethods then some (.returned PyValue.none) else none

/-- State of a widget that supports orientation, over an abstract backend
state `σ`, together with the log of arguments passed to
`_mgui_set_orientation` (so "the setter was invoked exactly once with `v`"
is observable). -/
structure OrientTrace (σ : Type) where
  state : σ
  setCalls : List String
  deriving DecidableEq

/-- Body of the `orientation` property setter of `SupportsOrientation`:
`if value not in {"horizontal", "vertical"}: raise ValueError(...)` and
otherwise `self._mgui_set_orientation(value)`, where `mset` is the
conforming object's `_mgui_set_orientation`. On rejection the state is
returned unchanged alongside the raised error. -/
def orientationSetter {σ : Type} (mset : String → σ → σ) (value : String)
    (t : OrientTrace σ) : OrientTrace σ × Option PyError :=
  if ¬ (value = "horizontal" ∨ value = "vertical") then
    (t, some (.valueError "Only horizontal and vertical orientation are currently supported"))
  else
    ({ state := mset value t.state, setCalls := t.setCalls ++ [value] }, Option.none)

/-- Body of the `orientation` property getter of `SupportsOrientation`:
`return self._mgui_get_orientation()`, where `mget` is the conforming
object's `_mgui_get_orientation`. No validation and no error path. -/
def orientationGetter {σ : Type} (mget : σ → String) (s : σ) :
    String × Option PyError :=
  (mget s, Option.none)

/-- Modelled from the spec: the concrete container backend (the Qt
`Container` of `magicgui/backends/_qtpy/widgets.py` is not among the source
files; only its abstract declaration in `ContainerProtocol` is). A container
owns an ordered sequence of child widget handles with contiguous indices
`[0, count)`. -/
structure ContainerState where
  children : List Nat
  deriving DecidableEq

/-- Modelled from the spec (and the source docstring
"(return None instead of index error)"): `_mgui_get_index` returns the
child at `index`, or `None` when the index is outside `[0, count)`; it
never raises. -/
def mgui_get_index (c : ContainerState) (index : Int) : Option Nat :=
  if 0 ≤ index then c.children.get? index.toNat else Option.none

/-- Modelled from the spec: `_mgui_remove_index` removes the child at
`position`, and fails with an out-of-range `IndexError` — leaving the child
sequence unchanged — when `position` is outside `[0, count)`. -/
def mgui_remove_index (c : ContainerState) (position : Int) :
    ContainerState × Option PyError :=
  if 0 ≤ position ∧ position < (c.children.length : Int) then
    ({ children := c.children.eraseIdx position.toNat }, Option.none)
  else
    (c, some (.indexError "container index out of range"))

/-- A timer as configured by `_mgui_start_timer`: interval, the bound
on-timeout callback (identified by an abstract id), and the single-shot
flag. -/
structure TimerState where
  interval : Int
  onTimeout : Option Nat
  single : Bool
  deriving DecidableEq

/-- Modelled from the spec: the application backend's process-scoped timer
handle — at most one active native timer per handle. -/
structure AppBackendState where
  activeTimer : Option TimerState
  deriving DecidableEq

/-- Default of the `interval` parameter of `_mgui_start_timer`
(`interval: int = 0` in the source signature). -/
def startTimerDefaultInterval : Int := 0

/-- Default of the `on_timeout` parameter of `_mgui_start_timer`
(`on_timeout: Optional[Callable[[], None]] = None` in the source
signature). -/
def startTimerDefaultOnTimeout : Option Nat := Option.none

/-- Default of the `single` parameter of `_mgui_start_timer`
(`single: bool = False` in the source signature). -/
def startTimerDefaultSingle : Bool := false

/-- Modelled from the spec: `_mgui_start_timer` stops any existing timer on
the handle and starts a new one with the given interval, callback and
single-shot flag; any such call is admissible and raises nothing. -/
def mgui_start_timer (s : AppBackendState) (interval : Int)
    (onTimeout : Option Nat) (single : Bool) : AppBackendState × Option PyError :=
  let _ := s
  ({ activeTimer := some { interval := interval, onTimeout := onTimeout, single := single } },
   Option.none)

/-- Modelled from the spec: `_mgui_stop_timer` stops the active timer,
tolerating the case where no timer is active (a no-op, not an error). -/
def mgui_stop_timer (s : AppBackendState) : AppBackendState × Option PyError :=
  let _ := s
  ({ activeTimer := Option.none }, Option.none)

/-- A (possibly partial) subclass of `BaseApplicationBackend`, abstracted to
the set of `_mgui_` methods it overrides with concrete implementations.
`BaseApplicationBackend` itself is the subclass overriding nothing. -/
structure AppBackendSubclass where
  overrides : List String
  deriving DecidableEq

/-- `BaseApplicationBackend` itself: it overrides none of its own abstract
methods. -/
def baseApplicationBackendItself : AppBackendSubclass := { overrides := [] }

/-- Python ABC instantiation of a `BaseApplicationBackend` subclass: since
the class derives from `ABC` and its seven `_mgui_` methods carry
`@abstractmethod`, object construction raises `TypeError` while any of them
is left unimplemented, and succeeds otherwise. -/
def instantiateAppBackend (c : AppBackendSubclass) : Except PyError AppBackendSubclass :=
  if appBackendAbstractMethods.all (fun m => c.overrides.contains m) then
    Except.ok c
  else
    Except.error (.typeError "Cannot instantiate abstract class with abstract methods _mgui_...")

/-- The protocols the spec's component design enumerates for
capability-checked conformance. -/
def claimedProtocols : List ProtoClass :=
  [.WidgetProtocol, .ValueWidgetProtocol, .RangedWidgetProtocol, .CategoricalWidgetProtocol,
   .ButtonWidgetProtocol, .SliderWidgetProtocol, .ContainerProtocol]

/-- A concrete object exposing every attribute of every protocol of the
module: a maximal conforming backend used as a witness object. -/
def fullBackendObj : PyObj :=
  { attrs :=
      protocolAttrs .SliderWidgetProtocol ++ protocolAttrs .ContainerProtocol ++
      protocolAttrs .CategoricalWidgetProtocol ++ protocolAttrs .ButtonWidgetProtocol }

/-- A concrete object exposing eight of the nine `WidgetProtocol`
operations — everything except `_mgui_render`. -/
def almostWidgetObj : PyObj :=
  { attrs :=
      ["_mgui_show_widget", "_mgui_hide_widget", "_mgui_get_enabled", "_mgui_set_enabled",
       "_mgui_get_parent", "_mgui_set_parent", "_mgui_get_native_widget",
       "_mgui_bind_parent_change_callback"] }

/-! ## Helper lemmas -/

theorem contains_eq_true_iff (l : List String) (a : String) :
    l.contains a = true ↔ a ∈ l := by
  simp [List.contains]

theorem all_contains_of_forall_mem (o : PyObj) {l₁ l₂ : List String}
    (hsub : ∀ a ∈ l₂, a ∈ l₁)
    (h : l₁.all (fun a => o.attrs.contains a) = true) :
    l₂.all (fun a => o.attrs.contains a) = true := by
  rw [List.all_eq_true] at h ⊢
  exact fun a ha => h a (hsub a ha)

theorem isinstance_mono (o : PyObj) {p q : ProtoClass}
    (h : isinstance o p = Except.ok true)
    (hp : isRuntimeProtocol p = true) (hq : isRuntimeProtocol q = true)
    (hsub : ∀ a ∈ protocolAttrs q, a ∈ protocolAttrs p) :
    isinstance o q = Except.ok true := by
  unfold isinstance at h ⊢
  rw [if_pos hp, Except.ok.injEq] at h
  rw [if_pos hq, Except.ok.injEq]
  exact all_contains_of_forall_mem o hsub h

/-! ## Claim theorems -/

/-- C1: for every protocol enumerated in the spec's component design
(WidgetProtocol, ValueWidgetProtocol, RangedWidgetProtocol,
CategoricalWidgetProtocol, ButtonWidgetProtocol, SliderWidgetProtocol and
ContainerProtocol), conformance is discoverable by a runtime structural
capability check: for any object exposing all of the protocol's required
attributes, the `isinstance`-style check succeeds with `True` — it neither
returns `False` nor raises (in particular not for `ContainerProtocol`,
which inherits the runtime-checkable flag through its MRO). -/
theorem C1_structural_conformance_discoverable (p : ProtoClass)
    (hp : p ∈ claimedProtocols) (o : PyObj)
    (h : ∀ a ∈ protocolAttrs p, a ∈ o.attrs) :
    isinstance o p = Except.ok true := by
  have hrt : isRuntimeProtocol p = true := by
    simp only [claimedProtocols, List.mem_cons, List.not_mem_nil, or_false] at hp
    rcases hp with rfl | rfl | rfl | rfl | rfl | rfl | rfl <;> rfl
  unfold isinstance
  rw [if_pos hrt, Except.ok.injEq, List.all_eq_true]
  intro a ha
  exact (contains_eq_true_iff _ _).mpr (h a ha)

/-- Witness for C1, at the most delicate protocol: `ContainerProtocol`
(the one class without its own `@runtime_checkable` decorator) and a
concrete object exposing every required attribute. -/
theorem C1_structural_conformance_witness :
    ProtoClass.ContainerProtocol ∈ claimedProtocols ∧
    isinstance fullBackendObj ProtoClass.ContainerProtocol = Except.ok true :=
  ⟨by decide,
   C1_structural_conformance_discoverable ProtoClass.ContainerProtocol (by decide)
     fullBackendObj (by decide)⟩

/-- C4: an object conforms to `RangedWidgetProtocol` iff it implements all
six of `_mgui_get/set_minimum/maximum/step` plus every method inherited
from `ValueWidgetProtocol` (value get/set, change-callback bind) and
`WidgetProtocol` (show, hide, enabled get/set, parent get/set, native
widget, parent-change callback, render). Conformance is structural: a
`PyObj` is just a bag of attribute names, with no declared base classes. -/
theorem C4_ranged_conformance_iff (o : PyObj) :
    isinstance o ProtoClass.RangedWidgetProtocol = Except.ok true ↔
    (["_mgui_get_minimum", "_mgui_set_minimum", "_mgui_get_maximum", "_mgui_set_maximum",
      "_mgui_get_step", "_mgui_set_step",
      "_mgui_get_value", "_mgui_set_value", "_mgui_bind_change_callback",
      "_mgui_show_widget", "_mgui_hide_widget", "_mgui_get_enabled", "_mgui_set_enabled",
      "_mgui_get_parent", "_mgui_set_parent", "_mgui_get_native_widget",
      "_mgui_bind_parent_change_callback", "_mgui_render"].all
        (fun a => o.attrs.contains a)) = true := by
  have hiso : isinstance o ProtoClass.RangedWidgetProtocol =
      Except.ok ((protocolAttrs ProtoClass.RangedWidgetProtocol).all
        (fun a => o.attrs.contains a)) := rfl
  rw [hiso, Except.ok.injEq]
  constructor
  · exact fun h => all_contains_of_forall_mem o (by decide) h
  · exact fun h => all_contains_of_forall_mem o (by decide) h

/-- Witness for C4: the full backend object satisfies the attribute list,
hence conforms to `RangedWidgetProtocol`. -/
theorem C4_ranged_conformance_witness :
    isinstance fullBackendObj ProtoClass.RangedWidgetProtocol = Except.ok true :=
  (C4_ranged_conformance_iff fullBackendObj).mpr (by decide)

/-- C6: capability composition without a single inheritance chain. Every
`SliderWidgetProtocol` conformer also conforms to `RangedWidgetProtocol`
(hence `ValueWidgetProtocol` and `WidgetProtocol`) and to
`SupportsOrientation`; every `ButtonWidgetProtocol` conformer to
`ValueWidgetProtocol` and `SupportsText`; every
`CategoricalWidgetProtocol` conformer to `ValueWidgetProtocol` and
`SupportsChoices`. -/
theorem C6_capability_composition (o : PyObj) :
    (isinstance o ProtoClass.SliderWidgetProtocol = Except.ok true →
       isinstance o ProtoClass.RangedWidgetProtocol = Except.ok true ∧
       isinstance o ProtoClass.ValueWidgetProtocol = Except.ok true ∧
       isinstance o ProtoClass.WidgetProtocol = Except.ok true ∧
       isinstance o ProtoClass.SupportsOrientation = Except.ok true) ∧
    (isinstance o ProtoClass.ButtonWidgetProtocol = Except.ok true →
       isinstance o ProtoClass.ValueWidgetProtocol = Except.ok true ∧
       isinstance o ProtoClass.SupportsText = Except.ok true) ∧
    (isinstance o ProtoClass.CategoricalWidgetProtocol = Except.ok true →
       isinstance o ProtoClass.ValueWidgetProtocol = Except.ok true ∧
       isinstance o ProtoClass.SupportsChoices = Except.ok true) := by
  refine ⟨fun h => ⟨?_, ?_, ?_, ?_⟩, fun h => ⟨?_, ?_⟩, fun h => ⟨?_, ?_⟩⟩ <;>
    exact isinstance_mono o h rfl rfl (by decide)

/-- Witness for C6: the full backend object conforms to the three composite
protocols, so the composed capabilities are all reachable through the
theorem. -/
theorem C6_capability_composition_witness :
    isinstance fullBackendObj ProtoClass.SupportsOrientation = Except.ok true ∧
    isinstance fullBackendObj ProtoClass.SupportsText = Except.ok true ∧
    isinstance fullBackendObj ProtoClass.SupportsChoices = Except.ok true := by
  have h := C6_capability_composition fullBackendObj
  exact ⟨(h.1 (by rfl)).2.2.2, (h.2.1 (by rfl)).2, (h.2.2 (by rfl)).2⟩

/-- C7: the base `WidgetProtocol` contract requires exactly show, hide,
enabled get/set, parent get/set, native-widget access, parent-change
callback binding and render — and none of the value/range/choice
operations; an object lacking any one of the nine does not conform. -/
theorem C7_widget_base_contract :
    (protocolAttrs ProtoClass.WidgetProtocol =
      ["_mgui_show_widget", "_mgui_hide_widget", "_mgui_get_enabled", "_mgui_set_enabled",
       "_mgui_get_parent", "_mgui_set_parent", "_mgui_get_native_widget",
       "_mgui_bind_parent_change_callback", "_mgui_render"]) ∧
    (∀ a ∈ ["_mgui_get_value", "_mgui_set_value", "_mgui_bind_change_callback",
            "_mgui_get_minimum", "_mgui_set_minimum", "_mgui_get_maximum",
            "_mgui_set_maximum", "_mgui_get_step", "_mgui_set_step",
            "_mgui_get_choices", "_mgui_set_choices"],
       a ∉ protocolAttrs ProtoClass.WidgetProtocol) ∧
    (∀ (o : PyObj) (a : String), a ∈ protocolAttrs ProtoClass.WidgetProtocol →
       o.attrs.contains a = false →
       isinstance o ProtoClass.WidgetProtocol ≠ Except.ok true) := by
  refine ⟨rfl, by decide, ?_⟩
  intro o a ha hnot h
  have hiso : isinstance o ProtoClass.WidgetProtocol =
      Except.ok ((protocolAttrs ProtoClass.WidgetProtocol).all
        (fun a => o.attrs.contains a)) := rfl
  rw [hiso, Except.ok.injEq, List.all_eq_true] at h
  have hc := h a ha
  rw [hnot] at hc
  exact Bool.false_ne_true hc

/-- Witness for C7: a concrete object exposing eight of the nine required
operations (everything except `_mgui_render`) is rejected by the check. -/
theorem C7_widget_base_contract_witness :
    ("_mgui_render" ∈ protocolAttrs ProtoClass.WidgetProtocol ∧
     almostWidgetObj.attrs.contains "_mgui_render" = false) ∧
    isinstance almostWidgetObj ProtoClass.WidgetProtocol ≠ Except.ok true := by
  have h := C7_widget_base_contract
  exact ⟨⟨by decide, by decide⟩,
    h.2.2 almostWidgetObj "_mgui_render" (by decide) (by decide)⟩

/-- C2: assigning `v` to the `orientation` property raises `ValueError` if
`v` is neither "horizontal" nor "vertical", and in the rejection case the
underlying `_mgui_set_orientation` is never invoked (state and call log
unchanged); if `v` is one of the two permitted strings, the setter is
invoked exactly once with `v`. -/
theorem C2_orientation_setter_validation {σ : Type} (mset : String → σ → σ)
    (v : String) (t : OrientTrace σ) :
    (¬ (v = "horizontal" ∨ v = "vertical") →
       orientationSetter mset v t =
         (t, some (PyError.valueError
           "Only horizontal and vertical orientation are currently supported"))) ∧
    ((v = "horizontal" ∨ v = "vertical") →
       orientationSetter mset v t =
         ({ state := mset v t.state, setCalls := t.setCalls ++ [v] }, Option.none)) := by
  constructor
  · intro h
    unfold orientationSetter
    rw [if_pos h]
  · intro h
    unfold orientationSetter
    rw [if_neg (not_not_intro h)]

/-- Witness for C2: "diagonal" is rejected with the state untouched and no
setter call recorded, while "vertical" goes through with exactly one
recorded call. -/
theorem C2_orientation_setter_witness :
    orientationSetter (fun _ (s : Unit) => s) "diagonal" { state := (), setCalls := [] } =
      ({ state := (), setCalls := [] },
       some (PyError.valueError
         "Only horizontal and vertical orientation are currently supported")) ∧
    orientationSetter (fun _ (s : Unit) => s) "vertical" { state := (), setCalls := [] } =
      ({ state := (), setCalls := ["vertical"] }, Option.none) :=
  ⟨(C2_orientation_setter_validation _ "diagonal" _).1 (by decide),
   (C2_orientation_setter_validation _ "vertical" _).2 (Or.inr rfl)⟩

/-- C3 counterexample: the claim says every required capability method —
including all `BaseApplicationBackend` `_mgui_` methods — raises
`NotImplementedError` when invoked unoverridden. But the abstract method
bodies of `BaseApplicationBackend` contain only a docstring: invoking
`_mgui_run` unoverridden returns `None` silently instead of raising. -/
theorem C3_counterexample_app_backend_run_returns_none :
    appBackendMethodDefaultBody "_mgui_run" = some (CallOutcome.returned PyValue.none) ∧
    appBackendMethodDefaultBody "_mgui_run" ≠
      some (CallOutcome.raised PyError.notImplementedError) := by
  constructor
  · rfl
  · intro h
    exact absurd (Option.some.inj h) (by decide)

/-- C3 (amended): every abstract `_mgui_` method declared in the protocol
classes raises `NotImplementedError` synchronously when invoked
unoverridden; the abstract `_mgui_` methods of `BaseApplicationBackend`,
however, have empty bodies and return `None` when so invoked — a missing
application-backend method is caught at instantiation time instead (C10),
not at call time. -/
theorem C3_default_bodies (p : ProtoClass) (m : String) :
    (m ∈ ownAbstractMethods p →
       protoMethodDefaultBody p m = some (CallOutcome.raised PyError.notImplementedError)) ∧
    (m ∈ appBackendAbstractMethods →
       appBackendMethodDefaultBody m = some (CallOutcome.returned PyValue.none)) := by
  constructor
  · intro hm
    unfold protoMethodDefaultBody
    rw [if_pos hm]
  · intro hm
    unfold appBackendMethodDefaultBody
    rw [if_pos hm]

/-- Witness for C3 (amended): `_mgui_show_widget` of `WidgetProtocol`
raises, `_mgui_run` of `BaseApplicationBackend` silently returns `None`. -/
theorem C3_default_bodies_witness :
    protoMethodDefaultBody ProtoClass.WidgetProtocol "_mgui_show_widget" =
      some (CallOutcome.raised PyError.notImplementedError) ∧
    appBackendMethodDefaultBody "_mgui_run" =
      some (CallOutcome.returned PyValue.none) :=
  ⟨(C3_default_bodies ProtoClass.WidgetProtocol "_mgui_show_widget").1 (by decide),
   (C3_default_bodies ProtoClass.WidgetProtocol "_mgui_run").2 (by decide)⟩

/-- C5: for every container and integer index `i` outside `[0, count)`,
get-by-index returns `None` and never raises, whereas remove-by-index
fails with an out-of-range `IndexError` and leaves the child sequence
unchanged — the two out-of-range policies are asymmetric. -/
theorem C5_index_asymmetry (c : ContainerState) (i : Int)
    (h : i < 0 ∨ (c.children.length : Int) ≤ i) :
    mgui_get_index c i = Option.none ∧
    mgui_remove_index c i =
      (c, some (PyError.indexError "container index out of range")) := by
  constructor
  · unfold mgui_get_index
    rcases h with h | h
    · rw [if_neg (by omega)]
    · rw [if_pos (by omega)]
      exact List.get?_eq_none.mpr (by omega)
  · unfold mgui_remove_index
    rw [if_neg (by omega)]

/-- Witness for C5: probing index 5 of a three-child container yields
`None`, while removing index 5 raises and leaves the children as they
were. -/
theorem C5_index_asymmetry_witness :
    mgui_get_index { children := [10, 20, 30] } 5 = Option.none ∧
    mgui_remove_index { children := [10, 20, 30] } 5 =
      ({ children := [10, 20, 30] },
       some (PyError.indexError "container index out of range")) :=
  C5_index_asymmetry { children := [10, 20, 30] } 5 (Or.inr (by decide))

/-- C8: `_mgui_start_timer` takes an interval defaulting to 0, an optional
on-timeout callback defaulting to `None` and a single-shot flag defaulting
to `False`; starting a timer with interval 0 and the single-shot flag is an
admissible call — it installs exactly that timer and raises nothing. -/
theorem C8_start_timer_defaults_and_single_shot :
    (startTimerDefaultInterval = 0 ∧
     startTimerDefaultOnTimeout = Option.none ∧
     startTimerDefaultSingle = false) ∧
    (∀ (s : AppBackendState) (cb : Option Nat),
       mgui_start_timer s 0 cb true =
         ({ activeTimer := some { interval := 0, onTimeout := cb, single := true } },
          Option.none)) :=
  ⟨⟨rfl, rfl, rfl⟩, fun _ _ => rfl⟩

/-- C9: reading the `orientation` property is a pure, unvalidated
delegation: it returns exactly what `_mgui_get_orientation` returns, with
no membership check against {"horizontal", "vertical"} and no error path —
even when the backend reports a string outside the enumeration. -/
theorem C9_orientation_getter_delegates {σ : Type} (mget : σ → String) (s : σ) :
    orientationGetter mget s = (mget s, Option.none) ∧
    ∀ v : String, orientationGetter (fun _ => v) s = (v, Option.none) :=
  ⟨rfl, fun _ => rfl⟩

/-- C10: `BaseApplicationBackend` is abstract: instantiating it, or any
subclass leaving one or more of the seven abstract `_mgui_` methods
unimplemented, fails with `TypeError` at construction — a successfully
constructed application backend implements all seven. -/
theorem C10_abstract_instantiation :
    (instantiateAppBackend baseApplicationBackendItself =
       Except.error (PyError.typeError
         "Cannot instantiate abstract class with abstract methods _mgui_...")) ∧
    (∀ (c : AppBackendSubclass) (m : String), m ∈ appBackendAbstractMethods →
       m ∉ c.overrides →
       ∀ inst, instantiateAppBackend c ≠ Except.ok inst) ∧
    (∀ (c : AppBackendSubclass) (inst : AppBackendSubclass),
       instantiateAppBackend c = Except.ok inst →
       ∀ m ∈ appBackendAbstractMethods, m ∈ c.overrides) := by
  have key : ∀ (c : AppBackendSubclass) (inst : AppBackendSubclass),
      instantiateAppBackend c = Except.ok inst →
      ∀ m ∈ appBackendAbstractMethods, m ∈ c.overrides := by
    intro c inst h m hm
    unfold instantiateAppBackend at h
    by_cases hall : appBackendAbstractMethods.all (fun x => c.overrides.contains x) = true
    · rw [List.all_eq_true] at hall
      exact (contains_eq_true_iff _ _).mp (hall m hm)
    · rw [if_neg hall] at h
      exact absurd h (by simp)
  refine ⟨rfl, ?_, key⟩
  intro c m hm hnot inst h
  exact hnot (key c inst h m hm)

/-- Witness for C10: a subclass implementing everything except
`_mgui_quit` cannot be constructed, and the theorem's third part recovers
the full override list from a successful construction. -/
theorem C10_abstract_instantiation_witness :
    ("_mgui_quit" ∈ appBackendAbstractMethods ∧
     "_mgui_quit" ∉ (AppBackendSubclass.mk
       ["_mgui_get_backend_name", "_mgui_process_events", "_mgui_run",
        "_mgui_get_native_app", "_mgui_start_timer", "_mgui_stop_timer"]).overrides) ∧
    ∀ inst, instantiateAppBackend (AppBackendSubclass.mk
       ["_mgui_get_backend_name", "_mgui_process_events", "_mgui_run",
        "_mgui_get_native_app", "_mgui_start_timer", "_mgui_stop_timer"]) ≠
      Except.ok inst := by
  have h := C10_abstract_instantiation
  exact ⟨⟨by decide, by decide⟩,
    h.2.1 _ "_mgui_quit" (by decide) (by decide)⟩

end Magicgui
